import Mathlib

/-
Verification of the romea_controllers repository: the ackermann_controller and
four_wheel_steering_controller control cores.  The two controller translation
units (src/ackermann_controller/src/ackermann_controller.cpp and
src/four_wheel_steering_controller/src/four_wheel_steering_controller.cpp) are
embedded shallowly below.  Doubles are modelled as real numbers; the only
floating-point special value these controllers branch on is NaN, which is
modelled explicitly by tagging values with a NaN flag (NReal).  The SpeedLimiter
and Odometry class bodies belong to the repository but are not among the
provided sources; they are modelled from the specification, as marked in their
doc comments.
-/

noncomputable section

open scoped Classical

/-- A double value as used by the controllers: a real payload together with a
NaN flag.  Arithmetic propagates the NaN flag (mirroring IEEE-754 NaN
propagation for the operations this code performs), and every ordered
comparison with a NaN operand is false. -/
structure NReal where
  nan : Bool
  val : ℝ

namespace NReal

/-- Embed an ordinary (non-NaN) double. -/
def ofReal (x : ℝ) : NReal := ⟨false, x⟩

instance : Add NReal := ⟨fun a b => ⟨a.nan || b.nan, a.val + b.val⟩⟩

instance : Sub NReal := ⟨fun a b => ⟨a.nan || b.nan, a.val - b.val⟩⟩

instance : Mul NReal := ⟨fun a b => ⟨a.nan || b.nan, a.val * b.val⟩⟩

instance : Div NReal := ⟨fun a b => ⟨a.nan || b.nan, a.val / b.val⟩⟩

instance : Neg NReal := ⟨fun a => ⟨a.nan, -a.val⟩⟩

/-- Lift a unary real function (tan, atan, sqrt, cos, sin, fabs all map NaN to
NaN and otherwise act on the payload). -/
def lift1 (f : ℝ → ℝ) (a : NReal) : NReal := ⟨a.nan, f a.val⟩

def tanN : NReal → NReal := lift1 Real.tan

def atanN : NReal → NReal := lift1 Real.arctan

def sqrtN : NReal → NReal := lift1 Real.sqrt

def cosN : NReal → NReal := lift1 Real.cos

def sinN : NReal → NReal := lift1 Real.sin

/-- x * x, the embedding of pow(x, 2). -/
def sq (a : NReal) : NReal := a * a

end NReal

/-- C++ clamp(x, lo, hi) = min(max(x, lo), hi). -/
def clampR (x lo hi : ℝ) : ℝ := min (max x lo) hi

/-- copysign(1.0, x): 1 with the sign of x.  (Real numbers have no signed
zero, so copysign(1.0, 0.0) is modelled as +1, which matches IEEE +0.) -/
def sgn (x : ℝ) : ℝ := if x < 0 then -1 else 1

/-- Modelled from the spec: the SpeedLimiter class of this repository (its
source file is not under src/; only its call sites and the configuration
surface are).  Spec section 4.2: per-axis bounds for velocity, acceleration and
jerk, each stage skipped entirely when its has_*_limits flag is false, and a
non-positive dt makes a stage a no-op rather than dividing by zero. -/
structure SpeedLimiter where
  has_velocity_limits : Bool
  has_acceleration_limits : Bool
  has_jerk_limits : Bool
  min_velocity : ℝ
  max_velocity : ℝ
  min_acceleration : ℝ
  max_acceleration : ℝ
  min_jerk : ℝ
  max_jerk : ℝ

namespace SpeedLimiter

/-- Modelled from the spec (section 4.2, step 1): when jerk limiting is
enabled, the admissible acceleration for this step is the previous step's
implied acceleration (v0 - v1)/dt widened by jerk_bound * dt, and the value is
recomputed from the clamped acceleration.  Skipped when dt is not positive. -/
def limitJerk (p : SpeedLimiter) (v v0 v1 dt : ℝ) : ℝ :=
  if p.has_jerk_limits = true ∧ 0 < dt then
    v0 + clampR (v - v0) ((v0 - v1) + p.min_jerk * dt * dt) ((v0 - v1) + p.max_jerk * dt * dt)
  else v

/-- Modelled from the spec (section 4.2, step 2): clamp the requested
acceleration (v - v0)/dt and recompute the value.  Skipped when dt is not
positive. -/
def limitAcceleration (p : SpeedLimiter) (v v0 dt : ℝ) : ℝ :=
  if p.has_acceleration_limits = true ∧ 0 < dt then
    v0 + clampR (v - v0) (p.min_acceleration * dt) (p.max_acceleration * dt)
  else v

/-- Modelled from the spec (section 4.2, step 3): clamp the value itself. -/
def limitVelocity (p : SpeedLimiter) (v : ℝ) : ℝ :=
  if p.has_velocity_limits = true then clampR v p.min_velocity p.max_velocity else v

/-- Modelled from the spec (section 4.2): limit(value, prev1, prev2, dt)
applies the jerk, acceleration and velocity stages in this fixed order.  The
C++ method mutates its first argument in place; here the limited value is
returned. -/
def limit (p : SpeedLimiter) (v v0 v1 dt : ℝ) : ℝ :=
  p.limitVelocity (p.limitAcceleration (p.limitJerk v v0 v1 dt) v0 dt)

/-- All three limit families disabled (the constructor default). -/
def noLimits (p : SpeedLimiter) : Prop :=
  p.has_velocity_limits = false ∧ p.has_acceleration_limits = false ∧
    p.has_jerk_limits = false

end SpeedLimiter

/-- Rolling-window accumulator insertion: newest sample in front, oldest
evicted once the configured size is reached (spec section 4.3). -/
def pushWindow (n : ℕ) (w : List NReal) (x : NReal) : List NReal := (x :: w).take n

/-- Average of the rolling window (spec section 4.3). -/
def windowMean (w : List NReal) : NReal :=
  w.foldr (fun a b => a + b) (NReal.ofReal 0) / NReal.ofReal (w.length)

/-- Modelled from the spec: the Odometry class of this repository (its source
file is not under src/; only its call sites are).  Spec sections 3 and 4.3:
planar pose, current velocities, geometry, rolling windows for velocity
smoothing, and the time of the last update. -/
structure Odometry where
  x : NReal
  y : NReal
  heading : NReal
  linear : NReal
  angular : NReal
  wheel_separation : ℝ
  wheel_radius : ℝ
  wheel_base : ℝ
  velocity_rolling_window_size : ℕ
  linear_window : List NReal
  angular_window : List NReal
  wheel_old_pos : NReal
  last_update_time : ℝ

namespace Odometry

/-- Modelled from the spec (section 4.3, open-loop mode): integrate the
commanded velocities directly, bypassing sensor feedback, using the
second-order midpoint-heading integration. -/
def updateOpenLoop (o : Odometry) (linear angular time : ℝ) : Odometry :=
  let dt := time - o.last_update_time
  let linN := NReal.ofReal linear
  let angN := NReal.ofReal angular
  let headingMid := o.heading + angN * NReal.ofReal (dt / 2)
  { o with
      linear := linN
      angular := angN
      heading := o.heading + angN * NReal.ofReal dt
      x := o.x + linN * NReal.cosN headingMid * NReal.ofReal dt
      y := o.y + linN * NReal.sinN headingMid * NReal.ofReal dt
      last_update_time := time }

/-- Modelled from the spec (section 4.3, closed-loop, single steering axle):
a non-positive dt is a no-op; the instantaneous linear velocity is derived
from the change in wheel position over dt, the angular velocity is
linear * tan(steering) / wheel_base, both are smoothed through the rolling
window, and the pose is integrated with the midpoint heading.  Heading is
accumulated without wrapping. -/
def update (o : Odometry) (wheelPos wheelVel steering : NReal) (time : ℝ) : Odometry :=
  let dt := time - o.last_update_time
  if dt ≤ 0 then o
  else
    let instLin := (wheelPos - o.wheel_old_pos) * NReal.ofReal o.wheel_radius /
      NReal.ofReal dt
    let lwin := pushWindow o.velocity_rolling_window_size o.linear_window instLin
    let lin := windowMean lwin
    let instAng := lin * NReal.tanN steering / NReal.ofReal o.wheel_base
    let awin := pushWindow o.velocity_rolling_window_size o.angular_window instAng
    let ang := windowMean awin
    let headingMid := o.heading + ang * NReal.ofReal (dt / 2)
    { o with
        linear := lin
        angular := ang
        linear_window := lwin
        angular_window := awin
        heading := o.heading + ang * NReal.ofReal dt
        x := o.x + lin * NReal.cosN headingMid * NReal.ofReal dt
        y := o.y + lin * NReal.sinN headingMid * NReal.ofReal dt
        wheel_old_pos := wheelPos
        last_update_time := time }

/-- Modelled from the spec (section 4.3, closed-loop, dual steering axle):
same shape as the single-axle update, but the linear velocity is taken
directly from the measured wheel velocity, and the angular velocity uses the
symmetric four-wheel geometry (both axles steer, halving the effective wheel
base); the spec fixes this variant only as "via the measured velocity/steering
geometry". -/
def updateFourWheel (o : Odometry) (wheelPos wheelVel steering : NReal) (time : ℝ) :
    Odometry :=
  let dt := time - o.last_update_time
  if dt ≤ 0 then o
  else
    let instLin := wheelVel * NReal.ofReal o.wheel_radius
    let lwin := pushWindow o.velocity_rolling_window_size o.linear_window instLin
    let lin := windowMean lwin
    let instAng := lin * NReal.tanN steering / NReal.ofReal (o.wheel_base / 2)
    let awin := pushWindow o.velocity_rolling_window_size o.angular_window instAng
    let ang := windowMean awin
    let headingMid := o.heading + ang * NReal.ofReal (dt / 2)
    { o with
        linear := lin
        angular := ang
        linear_window := lwin
        angular_window := awin
        heading := o.heading + ang * NReal.ofReal dt
        x := o.x + lin * NReal.cosN headingMid * NReal.ofReal dt
        y := o.y + lin * NReal.sinN headingMid * NReal.ofReal dt
        wheel_old_pos := wheelPos
        last_update_time := time }

end Odometry

/-- One joint's sensor feedback for a cycle: getPosition() and getVelocity(). -/
structure WheelReading where
  pos : NReal
  vel : NReal

/-- The sensor feedback read by one control cycle, per joint collection. -/
structure Sensors where
  left_wheels : List WheelReading
  right_wheels : List WheelReading
  left_steerings : List WheelReading
  right_steerings : List WheelReading

/-- The running sums accumulated by the wheel-reading loop of update(). -/
structure WheelSums where
  left_pos : ℝ
  right_pos : ℝ
  left_vel : ℝ
  right_vel : ℝ

/-- The wheel-reading loop shared by both controllers' update():
for each wheel pair read both positions, abort (return) if either is NaN,
read both velocities, abort if either is NaN, and accumulate the sums.
none models the early return of the C++ loop. -/
def readWheelJoints : List WheelReading → List WheelReading → Option WheelSums
  | l :: ls, r :: rs =>
    if l.pos.nan || r.pos.nan then none
    else if l.vel.nan || r.vel.nan then none
    else
      match readWheelJoints ls rs with
      | none => none
      | some t =>
        some ⟨l.pos.val + t.left_pos, r.pos.val + t.right_pos,
              l.vel.val + t.left_vel, r.vel.val + t.right_vel⟩
  | _, _ => some ⟨0, 0, 0, 0⟩

/-- The odometry snapshot handed to the realtime publisher when the publish
period has elapsed (the external sink itself is out of scope; the message
fields are the ones the update() fills in). -/
structure OdomMsg where
  stamp : ℝ
  x : NReal
  y : NReal
  heading : NReal
  linear : NReal
  angular : NReal

/-- The publish-time bookkeeping of update(): when one publish period has
elapsed, last_state_publish_time_ is advanced by exactly one period (not set
to the current time). -/
def pubAdvance (lastPub period time : ℝ) : ℝ :=
  if lastPub + period < time then lastPub + period else lastPub

namespace AckermannController

/-- The twist command hand-off structure of the ackermann controller
(struct Commands: linear, angular, stamp). -/
structure Commands where
  lin : ℝ
  ang : ℝ
  stamp : ℝ

/-- The configuration of the ackermann controller fixed by init()
(src/ackermann_controller/src/ackermann_controller.cpp, lines 139-297). -/
structure Config where
  open_loop : Bool
  cmd_vel_timeout : ℝ
  wheel_separation : ℝ
  wheel_radius : ℝ
  wheel_separation_multiplier : ℝ
  wheel_radius_multiplier : ℝ
  publish_period : ℝ
  limiter_lin : SpeedLimiter
  limiter_ang : SpeedLimiter

/-- The mutable state of the ackermann controller touched by the control
cycle and the command callback.  The joint lists hold the command value last
written to each actuator handle (setCommand); the command field is the
realtime buffer slot (readFromRT returns the latest fully written value), and
command_struct is the persistent struct the callback fills before writing the
buffer. -/
structure State where
  running : Bool
  left_wheel_joints : List ℝ
  right_wheel_joints : List ℝ
  left_steering_joints : List ℝ
  right_steering_joints : List ℝ
  odometry : Odometry
  last0_cmd : Commands
  last1_cmd : Commands
  command : Commands
  command_struct : Commands
  last_state_publish_time : ℝ

/-- The odometry phase of AckermannController::update (lines 301-345):
open-loop integration of the last accepted command, or the sensor read loop
followed by the closed-loop odometry update.  none is the early return taken
when a wheel position or velocity reading is NaN.  The steering position
reads are guarded (twice) by the left steering joint count and are not
NaN-checked. -/
def odoPhase (cfg : Config) (s : State) (sens : Sensors) (time : ℝ) : Option Odometry :=
  if cfg.open_loop then
    some (s.odometry.updateOpenLoop s.last0_cmd.lin s.last0_cmd.ang time)
  else
    match readWheelJoints sens.left_wheels sens.right_wheels with
    | none => none
    | some t =>
      let n : ℝ := s.left_wheel_joints.length
      let linear_pos := (t.left_pos / n + t.right_pos / n) / 2
      let linear_vel := (t.left_vel / n + t.right_vel / n) / 2
      let lsp : NReal :=
        if 0 < s.left_steering_joints.length then
          (sens.left_steerings.headD ⟨NReal.ofReal 0, NReal.ofReal 0⟩).pos
        else NReal.ofReal 0
      let rsp : NReal :=
        if 0 < s.left_steering_joints.length then
          (sens.right_steerings.headD ⟨NReal.ofReal 0, NReal.ofReal 0⟩).pos
        else NReal.ofReal 0
      let steering_pos := (lsp + rsp) / NReal.ofReal 2
      some (s.odometry.update (NReal.ofReal linear_pos) (NReal.ofReal linear_vel)
        steering_pos time)

/-- The command actually fed to the limiter in AckermannController::update
(lines 381-389): the latest buffered command, with linear and angular forced
to zero when its age exceeds cmd_vel_timeout_. -/
def preCmd (cfg : Config) (s : State) (time : ℝ) : Commands :=
  if cfg.cmd_vel_timeout < time - s.command.stamp then
    { s.command with lin := 0, ang := 0 }
  else s.command

/-- The publish and move phases of AckermannController::update (lines
347-414), run after a successful odometry phase producing o: publish at most
one odometry snapshot (advancing last_state_publish_time_ by one period),
limit the linear and angular channels against the last two accepted values,
shift the accepted-command history, and write the wheel velocity setpoints
computed by the variant A inverse kinematics to every wheel pair.  Steering
joints are not commanded here. -/
def moveRobot (cfg : Config) (s : State) (o : Odometry) (time period : ℝ) :
    State × List OdomMsg :=
  let msgs : List OdomMsg :=
    if s.last_state_publish_time + cfg.publish_period < time then
      [⟨time, o.x, o.y, o.heading, o.linear, o.angular⟩]
    else []
  let curr1 := preCmd cfg s time
  let lin2 := cfg.limiter_lin.limit curr1.lin s.last0_cmd.lin s.last1_cmd.lin period
  let ang2 := cfg.limiter_ang.limit curr1.ang s.last0_cmd.ang s.last1_cmd.ang period
  let curr2 : Commands := { lin := lin2, ang := ang2, stamp := curr1.stamp }
  let ws := cfg.wheel_separation_multiplier * cfg.wheel_separation
  let wr := cfg.wheel_radius_multiplier * cfg.wheel_radius
  let velLeft := (curr2.lin - curr2.ang * ws / 2) / wr
  let velRight := (curr2.lin + curr2.ang * ws / 2) / wr
  ({ s with
      odometry := o
      last_state_publish_time :=
        pubAdvance s.last_state_publish_time cfg.publish_period time
      last1_cmd := s.last0_cmd
      last0_cmd := curr2
      left_wheel_joints := List.replicate s.left_wheel_joints.length velLeft
      right_wheel_joints := List.replicate s.right_wheel_joints.length velRight },
    msgs)

/-- AckermannController::update (lines 299-414): odometry phase, then, unless
a NaN wheel reading aborted the cycle, the publish and move phases.  The
second component is the list of odometry snapshots emitted to the external
sink during the call. -/
def update (cfg : Config) (s : State) (sens : Sensors) (time period : ℝ) :
    State × List OdomMsg :=
  match odoPhase cfg s sens time with
  | none => (s, [])
  | some o => moveRobot cfg s o time period

/-- AckermannController::cmdVelCallback (lines 448-466): when the controller
is running, fill command_struct_ from the message, stamp it with the current
time and write it to the realtime buffer; otherwise log and change nothing. -/
def cmdVelCallback (s : State) (linear_x angular_z now : ℝ) : State :=
  if s.running then
    let c : Commands := { lin := linear_x, ang := angular_z, stamp := now }
    { s with command_struct := c, command := c }
  else s

/-- AckermannController::init (lines 139-297), from the point where the four
joint name lists have been retrieved: reject mismatched left/right wheel list
lengths, then mismatched left/right steering list lengths; parameter reads
always succeed; geometry resolution (explicit parameters or URDF) may fail,
abstracted by geomOk.  Joint handles are acquired only after every check has
passed; the second component lists the acquired handles. -/
def init (left_wheel_names right_wheel_names left_steering_names
    right_steering_names : List String) (geomOk : Bool) : Bool × List String :=
  if left_wheel_names.length ≠ right_wheel_names.length then (false, [])
  else if left_steering_names.length ≠ right_steering_names.length then (false, [])
  else if geomOk = false then (false, [])
  else (true,
    left_wheel_names ++ right_wheel_names ++ left_steering_names ++ right_steering_names)

end AckermannController

namespace FourWheelSteeringController

/-- The command hand-off structure of the four-wheel-steering controller
(struct Commands: linear speed, angular speed, per-axle steering angles,
stamp).  One struct serves both the twist and the four-wheel-steering
ingestion paths; each callback fills only its own fields. -/
structure Commands where
  lin : ℝ
  ang : ℝ
  front_steering : ℝ
  rear_steering : ℝ
  stamp : ℝ

/-- The configuration of the four-wheel-steering controller fixed by init()
(src/four_wheel_steering_controller/src/four_wheel_steering_controller.cpp,
lines 138-309).  There are no calibration multipliers in this variant. -/
structure Config where
  open_loop : Bool
  cmd_vel_timeout : ℝ
  wheel_separation : ℝ
  wheel_radius : ℝ
  wheel_base : ℝ
  publish_period : ℝ
  enable_twist_cmd : Bool
  limiter_lin : SpeedLimiter
  limiter_ang : SpeedLimiter

/-- The mutable state of the four-wheel-steering controller.  Joint lists
hold the value last written to each actuator handle; wheel velocity and
steering position commands can become NaN through the odometry estimate, so
they are NReal.  There are two realtime buffer slots, one per ingestion
path, each with its persistent struct. -/
structure State where
  running : Bool
  left_wheel_joints : List NReal
  right_wheel_joints : List NReal
  left_steering_joints : List NReal
  right_steering_joints : List NReal
  odometry : Odometry
  last0_cmd : Commands
  last1_cmd : Commands
  command : Commands
  command_struct : Commands
  command_four_wheel_steering : Commands
  command_struct_four_wheel_steering : Commands
  last_state_publish_time : ℝ

/-- The odometry phase of FourWheelSteeringController::update (lines
313-360): open-loop integration of the last accepted command, or the sensor
read loop followed by the closed-loop dual-axle odometry update.  none is the
early return taken when a wheel position or velocity reading is NaN.  The
steering position reads are guarded by both steering joint counts and are not
NaN-checked. -/
def odoPhase (cfg : Config) (s : State) (sens : Sensors) (time : ℝ) : Option Odometry :=
  if cfg.open_loop then
    some (s.odometry.updateOpenLoop s.last0_cmd.lin s.last0_cmd.ang time)
  else
    match readWheelJoints sens.left_wheels sens.right_wheels with
    | none => none
    | some t =>
      let n : ℝ := s.left_wheel_joints.length
      let wheel_angular_pos := (t.left_pos / n + t.right_pos / n) / 2
      let wheel_angular_vel := (t.left_vel / n + t.right_vel / n) / 2
      let lsp : NReal :=
        if 0 < s.left_steering_joints.length ∧ 0 < s.right_steering_joints.length then
          (sens.left_steerings.headD ⟨NReal.ofReal 0, NReal.ofReal 0⟩).pos
        else NReal.ofReal 0
      let rsp : NReal :=
        if 0 < s.left_steering_joints.length ∧ 0 < s.right_steering_joints.length then
          (sens.right_steerings.headD ⟨NReal.ofReal 0, NReal.ofReal 0⟩).pos
        else NReal.ofReal 0
      let steering_pos := (lsp + rsp) / NReal.ofReal 2
      some (s.odometry.updateFourWheel (NReal.ofReal wheel_angular_pos)
        (NReal.ofReal wheel_angular_vel) steering_pos time)

/-- The command actually fed to the limiter in
FourWheelSteeringController::update (lines 396-411): the latest value of the
buffer selected by enable_twist_cmd_, with linear, angular and both steering
angles forced to zero when its age exceeds cmd_vel_timeout_. -/
def preCmd (cfg : Config) (s : State) (time : ℝ) : Commands :=
  let curr0 :=
    if cfg.enable_twist_cmd then s.command else s.command_four_wheel_steering
  if cfg.cmd_vel_timeout < time - curr0.stamp then
    { curr0 with lin := 0, ang := 0, front_steering := 0, rear_steering := 0 }
  else curr0

/-- vel_left_front of the variant B inverse kinematics (line 429). -/
def velLeftFront (lin : ℝ) (w : NReal) (ws wr wb : ℝ) : NReal :=
  NReal.ofReal (sgn lin) *
    NReal.sqrtN (NReal.sq (NReal.ofReal lin - w * NReal.ofReal ws / NReal.ofReal 2) +
      NReal.sq (NReal.ofReal wb * w)) / NReal.ofReal wr

/-- vel_right_front of the variant B inverse kinematics (line 430). -/
def velRightFront (lin : ℝ) (w : NReal) (ws wr wb : ℝ) : NReal :=
  NReal.ofReal (sgn lin) *
    NReal.sqrtN (NReal.sq (NReal.ofReal lin + w * NReal.ofReal ws / NReal.ofReal 2) +
      NReal.sq (NReal.ofReal wb * w)) / NReal.ofReal wr

/-- vel_left_rear of the variant B inverse kinematics (line 431). -/
def velLeftRear (lin : ℝ) (w : NReal) (ws wr : ℝ) : NReal :=
  (NReal.ofReal lin - w * NReal.ofReal ws / NReal.ofReal 2) / NReal.ofReal wr

/-- vel_right_rear of the variant B inverse kinematics (line 432). -/
def velRightRear (lin : ℝ) (w : NReal) (ws wr : ℝ) : NReal :=
  (NReal.ofReal lin + w * NReal.ofReal ws / NReal.ofReal 2) / NReal.ofReal wr

/-- The steering setpoints of FourWheelSteeringController::update (lines
442-456).  Twist-input mode: zero unless the magnitude of the odometry
linear-velocity estimate exceeds 0.01 (a NaN estimate compares false and also
yields zero), otherwise atan(post-limit angular command * wheel base /
linear-velocity estimate) split as front = steering/2, rear = -steering/2.
Direct-axle mode: the command's front and rear steering pass through
unchanged. -/
def steeringOf (enable_twist : Bool) (ang wb : ℝ) (odomLinear : NReal)
    (front rear : ℝ) : NReal × NReal :=
  if enable_twist then
    if odomLinear.nan = false ∧ (0.01 : ℝ) < |odomLinear.val| then
      let steering := NReal.atanN (NReal.ofReal (ang * wb) / odomLinear)
      (steering / NReal.ofReal 2, -steering / NReal.ofReal 2)
    else (NReal.ofReal 0, NReal.ofReal 0)
  else (NReal.ofReal front, NReal.ofReal rear)

/-- The publish and move phases of FourWheelSteeringController::update (lines
362-465), run after a successful odometry phase producing o: publish at most
one odometry snapshot (advancing last_state_publish_time_ by one period),
limit the linear and angular channels against the last two accepted values,
shift the accepted-command history, and, when the joint collections have the
required size two, write the four wheel velocity setpoints (front row index
0, rear row index 1, using the post-update odometry angular velocity) and the
two steering angle setpoints (front to both index-0 steering joints, rear to
both index-1 steering joints). -/
def moveRobot (cfg : Config) (s : State) (o : Odometry) (time period : ℝ) :
    State × List OdomMsg :=
  let msgs : List OdomMsg :=
    if s.last_state_publish_time + cfg.publish_period < time then
      [⟨time, o.x, o.y, o.heading, o.linear, o.angular⟩]
    else []
  let curr1 := preCmd cfg s time
  let lin2 := cfg.limiter_lin.limit curr1.lin s.last0_cmd.lin s.last1_cmd.lin period
  let ang2 := cfg.limiter_ang.limit curr1.ang s.last0_cmd.ang s.last1_cmd.ang period
  let curr2 : Commands := { curr1 with lin := lin2, ang := ang2 }
  let w := o.angular
  let ws := cfg.wheel_separation
  let wr := cfg.wheel_radius
  let wb := cfg.wheel_base
  let steer := steeringOf cfg.enable_twist_cmd curr2.ang wb o.linear
    curr2.front_steering curr2.rear_steering
  let wheelsOk :=
    s.left_wheel_joints.length = 2 ∧ s.right_wheel_joints.length = 2
  let steeringsOk :=
    s.left_steering_joints.length = 2 ∧ s.right_steering_joints.length = 2
  ({ s with
      odometry := o
      last_state_publish_time :=
        pubAdvance s.last_state_publish_time cfg.publish_period time
      last1_cmd := s.last0_cmd
      last0_cmd := curr2
      left_wheel_joints :=
        if wheelsOk then [velLeftFront curr2.lin w ws wr wb, velLeftRear curr2.lin w ws wr]
        else s.left_wheel_joints
      right_wheel_joints :=
        if wheelsOk then [velRightFront curr2.lin w ws wr wb, velRightRear curr2.lin w ws wr]
        else s.right_wheel_joints
      left_steering_joints :=
        if steeringsOk then [steer.1, steer.2] else s.left_steering_joints
      right_steering_joints :=
        if steeringsOk then [steer.1, steer.2] else s.right_steering_joints },
    msgs)

/-- FourWheelSteeringController::update (lines 311-466): odometry phase,
then, unless a NaN wheel reading aborted the cycle, the publish and move
phases.  The second component is the list of odometry snapshots emitted to
the external sink during the call. -/
def update (cfg : Config) (s : State) (sens : Sensors) (time period : ℝ) :
    State × List OdomMsg :=
  match odoPhase cfg s sens time with
  | none => (s, [])
  | some o => moveRobot cfg s o time period

/-- FourWheelSteeringController::cmdVelCallback (lines 500-518): when
running, fill the angular, linear and stamp fields of command_struct_ (the
steering fields keep their previous contents) and write it to the twist
buffer; otherwise log and change nothing. -/
def cmdVelCallback (s : State) (linear_x angular_z now : ℝ) : State :=
  if s.running then
    let c : Commands :=
      { s.command_struct with lin := linear_x, ang := angular_z, stamp := now }
    { s with command_struct := c, command := c }
  else s

/-- FourWheelSteeringController::cmdFourWheelSteeringCallback (lines
520-540): when running, fill the steering, speed and stamp fields of
command_struct_four_wheel_steering_ (the angular field keeps its previous
contents) and write it to the four-wheel-steering buffer; otherwise log and
change nothing. -/
def cmdFourWheelSteeringCallback (s : State) (front_steering_angle
    rear_steering_angle speed now : ℝ) : State :=
  if s.running then
    let c : Commands :=
      { s.command_struct_four_wheel_steering with
          front_steering := front_steering_angle
          rear_steering := rear_steering_angle
          lin := speed
          stamp := now }
    { s with
        command_struct_four_wheel_steering := c
        command_four_wheel_steering := c }
  else s

/-- FourWheelSteeringController::init (lines 138-309), from the point where
the four joint name lists have been retrieved: reject mismatched left/right
wheel list lengths, then a wheel count other than two, then mismatched
left/right steering list lengths, then a steering count other than two;
geometry resolution may fail, abstracted by geomOk.  Joint handles are
acquired only after every check has passed. -/
def init (left_wheel_names right_wheel_names left_steering_names
    right_steering_names : List String) (geomOk : Bool) : Bool × List String :=
  if left_wheel_names.length ≠ right_wheel_names.length then (false, [])
  else if left_wheel_names.length ≠ 2 then (false, [])
  else if left_steering_names.length ≠ right_steering_names.length then (false, [])
  else if left_steering_names.length ≠ 2 then (false, [])
  else if geomOk = false then (false, [])
  else (true,
    left_wheel_names ++ right_wheel_names ++ left_steering_names ++ right_steering_names)

end FourWheelSteeringController

/-- A limiter with every limit family disabled (the constructor default). -/
def speedLimiterOff : SpeedLimiter :=
  { has_velocity_limits := false
    has_acceleration_limits := false
    has_jerk_limits := false
    min_velocity := 0
    max_velocity := 0
    min_acceleration := 0
    max_acceleration := 0
    min_jerk := 0
    max_jerk := 0 }

/-- A limiter with only acceleration limiting enabled, bounds [-1, 1]. -/
def speedLimiterAccOnly : SpeedLimiter :=
  { speedLimiterOff with
      has_acceleration_limits := true
      min_acceleration := -1
      max_acceleration := 1 }

/-- A freshly initialised odometry estimator (init zeroes the pose). -/
def odo0 : Odometry :=
  { x := NReal.ofReal 0
    y := NReal.ofReal 0
    heading := NReal.ofReal 0
    linear := NReal.ofReal 0
    angular := NReal.ofReal 0
    wheel_separation := 1 / 2
    wheel_radius := 1 / 10
    wheel_base := 1
    velocity_rolling_window_size := 10
    linear_window := []
    angular_window := []
    wheel_old_pos := NReal.ofReal 0
    last_update_time := 0 }

/-- A well-formed sensor reading: position and velocity both zero. -/
def cleanReading : WheelReading := ⟨NReal.ofReal 0, NReal.ofReal 0⟩

/-- A reading whose position is NaN. -/
def nanPosReading : WheelReading := ⟨⟨true, 0⟩, NReal.ofReal 0⟩

/-- Clean sensors for a one-wheel-pair (ackermann) topology. -/
def sensClean1 : Sensors := ⟨[cleanReading], [cleanReading], [cleanReading], [cleanReading]⟩

/-- One-pair sensors with a NaN left wheel position. -/
def sensNanWheel1 : Sensors :=
  ⟨[nanPosReading], [cleanReading], [cleanReading], [cleanReading]⟩

/-- One-pair sensors with a NaN left steering position (the wheel readings
are clean). -/
def sensNanSteer1 : Sensors :=
  ⟨[cleanReading], [cleanReading], [nanPosReading], [cleanReading]⟩

/-- Clean sensors for a two-wheel-pair (four-wheel-steering) topology. -/
def sensClean2 : Sensors :=
  ⟨[cleanReading, cleanReading], [cleanReading, cleanReading],
   [cleanReading, cleanReading], [cleanReading, cleanReading]⟩

/-- Two-pair sensors with a NaN rear right wheel velocity. -/
def sensNanWheel2 : Sensors :=
  ⟨[cleanReading, cleanReading], [cleanReading, ⟨NReal.ofReal 0, ⟨true, 0⟩⟩],
   [cleanReading, cleanReading], [cleanReading, cleanReading]⟩

namespace AckermannController

/-- A small concrete configuration: timeout 0.5 s, wheel separation 0.5,
wheel radius 0.1, multipliers 1, publish period 1 s. -/
def mkCfg (ol : Bool) (ll la : SpeedLimiter) : Config :=
  { open_loop := ol
    cmd_vel_timeout := 1 / 2
    wheel_separation := 1 / 2
    wheel_radius := 1 / 10
    wheel_separation_multiplier := 1
    wheel_radius_multiplier := 1
    publish_period := 1
    limiter_lin := ll
    limiter_ang := la }

/-- A small concrete running state with one wheel pair and one steering
pair; every wheel command starts at zero and both steering commands at
steerCmd. -/
def mkState (buf l0 l1 : Commands) (steerCmd lastPub : ℝ) : State :=
  { running := true
    left_wheel_joints := [0]
    right_wheel_joints := [0]
    left_steering_joints := [steerCmd]
    right_steering_joints := [steerCmd]
    odometry := odo0
    last0_cmd := l0
    last1_cmd := l1
    command := buf
    command_struct := ⟨0, 0, 0⟩
    last_state_publish_time := lastPub }

/-- Iterated control cycles at a fixed cycle time with fixed sensor input
(the second component of each update, the emitted snapshots, is dropped). -/
def iterateCycles (cfg : Config) (sens : Sensors) (time period : ℝ) (s : State) :
    ℕ → State
  | 0 => s
  | n + 1 => (update cfg (iterateCycles cfg sens time period s n) sens time period).1

end AckermannController

namespace FourWheelSteeringController

/-- A small concrete configuration: timeout 0.5 s, wheel separation 0.5,
wheel radius 0.1, wheel base 1, publish period 1 s. -/
def mkCfg (ol twist : Bool) (ll la : SpeedLimiter) : Config :=
  { open_loop := ol
    cmd_vel_timeout := 1 / 2
    wheel_separation := 1 / 2
    wheel_radius := 1 / 10
    wheel_base := 1
    publish_period := 1
    enable_twist_cmd := twist
    limiter_lin := ll
    limiter_ang := la }

/-- The all-zero command. -/
def cmd0 : Commands := ⟨0, 0, 0, 0, 0⟩

/-- A small concrete running state with the required two wheel pairs and two
steering pairs, all actuator commands zero. -/
def mkState (bufTwist buf4ws l0 l1 : Commands) (lastPub : ℝ) : State :=
  { running := true
    left_wheel_joints := [NReal.ofReal 0, NReal.ofReal 0]
    right_wheel_joints := [NReal.ofReal 0, NReal.ofReal 0]
    left_steering_joints := [NReal.ofReal 0, NReal.ofReal 0]
    right_steering_joints := [NReal.ofReal 0, NReal.ofReal 0]
    odometry := odo0
    last0_cmd := l0
    last1_cmd := l1
    command := bufTwist
    command_struct := cmd0
    command_four_wheel_steering := buf4ws
    command_struct_four_wheel_steering := cmd0
    last_state_publish_time := lastPub }

/-- Iterated control cycles at a fixed cycle time with fixed sensor input. -/
def iterateCycles (cfg : Config) (sens : Sensors) (time period : ℝ) (s : State) :
    ℕ → State
  | 0 => s
  | n + 1 => (update cfg (iterateCycles cfg sens time period s n) sens time period).1

end FourWheelSteeringController

@[simp] theorem NReal.nan_ofReal (x : ℝ) : (NReal.ofReal x).nan = false := rfl

@[simp] theorem NReal.val_ofReal (x : ℝ) : (NReal.ofReal x).val = x := rfl

@[simp] theorem NReal.nan_add (a b : NReal) : (a + b).nan = (a.nan || b.nan) := rfl

@[simp] theorem NReal.val_add (a b : NReal) : (a + b).val = a.val + b.val := rfl

@[simp] theorem NReal.nan_sub (a b : NReal) : (a - b).nan = (a.nan || b.nan) := rfl

@[simp] theorem NReal.val_sub (a b : NReal) : (a - b).val = a.val - b.val := rfl

@[simp] theorem NReal.nan_mul (a b : NReal) : (a * b).nan = (a.nan || b.nan) := rfl

@[simp] theorem NReal.val_mul (a b : NReal) : (a * b).val = a.val * b.val := rfl

@[simp] theorem NReal.nan_div (a b : NReal) : (a / b).nan = (a.nan || b.nan) := rfl

@[simp] theorem NReal.val_div (a b : NReal) : (a / b).val = a.val / b.val := rfl

@[simp] theorem NReal.nan_neg (a : NReal) : (-a).nan = a.nan := rfl

@[simp] theorem NReal.val_neg (a : NReal) : (-a).val = -a.val := rfl

@[simp] theorem NReal.nan_lift1 (f : ℝ → ℝ) (a : NReal) : (NReal.lift1 f a).nan = a.nan :=
  rfl

@[simp] theorem NReal.val_lift1 (f : ℝ → ℝ) (a : NReal) : (NReal.lift1 f a).val = f a.val :=
  rfl

/-- A limiter with all three families disabled is the identity (spec section
4.2: each stage is skipped entirely when its flag is false). -/
theorem SpeedLimiter.limit_of_noLimits {p : SpeedLimiter} (h : p.noLimits)
    (v v0 v1 dt : ℝ) : p.limit v v0 v1 dt = v := by
  obtain ⟨hv, ha, hj⟩ := h
  simp [SpeedLimiter.limit, SpeedLimiter.limitVelocity, SpeedLimiter.limitAcceleration,
    SpeedLimiter.limitJerk, hv, ha, hj]

/-- If any wheel reading of the cycle (position or velocity, within the
paired prefix the loop visits) is NaN, the read loop aborts. -/
theorem readWheelJoints_eq_none_of_nan (l r : List WheelReading)
    (h : ∃ pr ∈ l.zip r, pr.1.pos.nan = true ∨ pr.1.vel.nan = true ∨
      pr.2.pos.nan = true ∨ pr.2.vel.nan = true) :
    readWheelJoints l r = none := by
  induction l generalizing r with
  | nil => simp at h
  | cons a ls ih =>
    cases r with
    | nil => simp at h
    | cons b rs =>
      simp only [List.zip_cons_cons, List.mem_cons] at h
      obtain ⟨pr, hpr, hnan⟩ := h
      rcases hpr with rfl | hpr
      · by_cases hp : a.pos.nan || b.pos.nan
        · simp [readWheelJoints, hp]
        · have hv : (a.vel.nan || b.vel.nan) = true := by
            simp only [Bool.or_eq_true] at hp ⊢
            push_neg at hp
            rcases hnan with h1 | h1 | h1 | h1
            · exact absurd h1 hp.1
            · exact Or.inl h1
            · exact absurd h1 hp.2
            · exact Or.inr h1
          simp [readWheelJoints, hp, hv]
      · have htail := ih rs ⟨pr, hpr, hnan⟩
        simp only [readWheelJoints, htail]
        split <;> simp

namespace AckermannController

/-- A cycle whose wheel-read loop aborts returns with nothing changed and
nothing published. -/
theorem update_of_aborted_ack {cfg : Config} {s : State} {sens : Sensors}
    {time period : ℝ} (h : odoPhase cfg s sens time = none) :
    update cfg s sens time period = (s, []) := by
  simp [update, h]

/-- A cycle whose odometry phase succeeds runs the publish and move phases. -/
theorem update_of_some_ack {cfg : Config} {s : State} {sens : Sensors}
    {time period : ℝ} {o : Odometry} (h : odoPhase cfg s sens time = some o) :
    update cfg s sens time period = moveRobot cfg s o time period := by
  simp [update, h]

/-- The odometry phase aborts exactly when the controller is in closed loop
and the wheel-read loop aborts; in particular whether it aborts does not
depend on the controller state. -/
theorem odoPhase_eq_none_iff_ack {cfg : Config} {s : State} {sens : Sensors} {time : ℝ} :
    odoPhase cfg s sens time = none ↔
      cfg.open_loop = false ∧
        readWheelJoints sens.left_wheels sens.right_wheels = none := by
  unfold odoPhase
  cases hol : cfg.open_loop
  · cases hr : readWheelJoints sens.left_wheels sens.right_wheels <;> simp [hr]
  · simp

end AckermannController

namespace FourWheelSteeringController

/-- A cycle whose wheel-read loop aborts returns with nothing changed and
nothing published. -/
theorem update_of_aborted_fws {cfg : Config} {s : State} {sens : Sensors}
    {time period : ℝ} (h : odoPhase cfg s sens time = none) :
    update cfg s sens time period = (s, []) := by
  simp [update, h]

/-- A cycle whose odometry phase succeeds runs the publish and move phases. -/
theorem update_of_some_fws {cfg : Config} {s : State} {sens : Sensors}
    {time period : ℝ} {o : Odometry} (h : odoPhase cfg s sens time = some o) :
    update cfg s sens time period = moveRobot cfg s o time period := by
  simp [update, h]

/-- The odometry phase aborts exactly when the controller is in closed loop
and the wheel-read loop aborts. -/
theorem odoPhase_eq_none_iff_fws {cfg : Config} {s : State} {sens : Sensors} {time : ℝ} :
    odoPhase cfg s sens time = none ↔
      cfg.open_loop = false ∧
        readWheelJoints sens.left_wheels sens.right_wheels = none := by
  unfold odoPhase
  cases hol : cfg.open_loop
  · cases hr : readWheelJoints sens.left_wheels sens.right_wheels <;> simp [hr]
  · simp

end FourWheelSteeringController

/-- Catch-up behaviour of the publish-time bookkeeping: a trajectory that
steps by pubAdvance at a fixed evaluation time and starts more than (k+1)
periods behind advances by exactly one period per step for the first k+1
steps. -/
theorem pubAdvance_catchup (P t : ℝ) (hP : 0 < P) (f : ℕ → ℝ)
    (hstep : ∀ n, f (n + 1) = pubAdvance (f n) P t) (k : ℕ)
    (h : f 0 + (k + 1) * P < t) :
    ∀ n, n ≤ k + 1 → f n = f 0 + n * P := by
  intro n hn
  induction n with
  | zero => simp
  | succ m ih =>
    have hm := ih (le_trans (Nat.le_succ m) hn)
    have hcast : ((m : ℝ) + 1) * P ≤ ((k : ℝ) + 1) * P := by
      have : ((m : ℝ) + 1) ≤ (k : ℝ) + 1 := by exact_mod_cast hn
      exact mul_le_mul_of_nonneg_right this hP.le
    have hcond : f m + P < t := by
      rw [hm]; nlinarith [h]
    rw [hstep, pubAdvance, if_pos hcond, hm]
    push_cast; ring

/-- C8: init returns false whenever the left and right wheel name lists have
different lengths, or the left and right steering name lists have different
lengths, or, in the four-wheel-steering variant, when any of the four lists
does not have exactly two entries; on such a failure no joint handles are
acquired. -/
theorem init_rejects_bad_joint_lists :
    (∀ (lw rw ls rs : List String) (geomOk : Bool),
      lw.length ≠ rw.length ∨ ls.length ≠ rs.length →
      AckermannController.init lw rw ls rs geomOk = (false, [])) ∧
    (∀ (lw rw ls rs : List String) (geomOk : Bool),
      lw.length ≠ rw.length ∨ ls.length ≠ rs.length ∨ lw.length ≠ 2 ∨
        rw.length ≠ 2 ∨ ls.length ≠ 2 ∨ rs.length ≠ 2 →
      FourWheelSteeringController.init lw rw ls rs geomOk = (false, [])) := by
  constructor
  · intro lw rw ls rs geomOk h
    unfold AckermannController.init
    split_ifs with h1 h2 h3 <;>
      first
      | rfl
      | (exfalso; rcases h with h | h <;> omega)
  · intro lw rw ls rs geomOk h
    unfold FourWheelSteeringController.init
    split_ifs with h1 h2 h3 h4 h5 <;>
      first
      | rfl
      | (exfalso; rcases h with h | h | h | h | h <;> omega)

/-- Witness for C8: a concrete mismatched wheel list fails ackermann init,
and a concrete one-entry list family fails four-wheel-steering init. -/
theorem init_rejects_bad_joint_lists_witness :
    AckermannController.init ["fl"] [] ["sl"] ["sr"] true = (false, []) ∧
    FourWheelSteeringController.init ["fl"] ["fr"] ["sl"] ["sr"] true = (false, []) := by
  constructor
  · exact init_rejects_bad_joint_lists.1 _ _ _ _ _ (Or.inl (by simp))
  · exact init_rejects_bad_joint_lists.2 _ _ _ _ _ (Or.inr (Or.inr (Or.inl (by simp))))

/-- C9: each command ingestion callback writes the command, stamped with the
current time, to its buffer exactly when the controller is running; when the
controller is not running the callback mutates no state. -/
theorem command_ingestion_requires_running :
    (∀ (s : AckermannController.State) (lx az now : ℝ),
      (s.running = true →
        AckermannController.cmdVelCallback s lx az now =
          { s with command_struct := ⟨lx, az, now⟩, command := ⟨lx, az, now⟩ }) ∧
      (s.running = false → AckermannController.cmdVelCallback s lx az now = s)) ∧
    (∀ (s : FourWheelSteeringController.State) (lx az now : ℝ),
      (s.running = true →
        FourWheelSteeringController.cmdVelCallback s lx az now =
          { s with
              command_struct := ⟨lx, az, s.command_struct.front_steering,
                s.command_struct.rear_steering, now⟩
              command := ⟨lx, az, s.command_struct.front_steering,
                s.command_struct.rear_steering, now⟩ }) ∧
      (s.running = false → FourWheelSteeringController.cmdVelCallback s lx az now = s)) ∧
    (∀ (s : FourWheelSteeringController.State) (f r sp now : ℝ),
      (s.running = true →
        FourWheelSteeringController.cmdFourWheelSteeringCallback s f r sp now =
          { s with
              command_struct_four_wheel_steering :=
                ⟨sp, s.command_struct_four_wheel_steering.ang, f, r, now⟩
              command_four_wheel_steering :=
                ⟨sp, s.command_struct_four_wheel_steering.ang, f, r, now⟩ }) ∧
      (s.running = false →
        FourWheelSteeringController.cmdFourWheelSteeringCallback s f r sp now = s)) := by
  refine ⟨fun s lx az now => ⟨fun h => ?_, fun h => ?_⟩,
    fun s lx az now => ⟨fun h => ?_, fun h => ?_⟩,
    fun s f r sp now => ⟨fun h => ?_, fun h => ?_⟩⟩ <;>
    simp [AckermannController.cmdVelCallback, FourWheelSteeringController.cmdVelCallback,
      FourWheelSteeringController.cmdFourWheelSteeringCallback, h]

/-- Witness for C9: a running controller accepts a concrete command (stamped
with the given time), and a stopped one ignores it. -/
theorem command_ingestion_requires_running_witness :
    AckermannController.cmdVelCallback
        (AckermannController.mkState ⟨0, 0, 0⟩ ⟨0, 0, 0⟩ ⟨0, 0, 0⟩ 0 0) 1 2 3 =
      { AckermannController.mkState ⟨0, 0, 0⟩ ⟨0, 0, 0⟩ ⟨0, 0, 0⟩ 0 0 with
          command_struct := ⟨1, 2, 3⟩, command := ⟨1, 2, 3⟩ } ∧
    AckermannController.cmdVelCallback
        { AckermannController.mkState ⟨0, 0, 0⟩ ⟨0, 0, 0⟩ ⟨0, 0, 0⟩ 0 0 with
            running := false } 1 2 3 =
      { AckermannController.mkState ⟨0, 0, 0⟩ ⟨0, 0, 0⟩ ⟨0, 0, 0⟩ 0 0 with
          running := false } ∧
    FourWheelSteeringController.cmdFourWheelSteeringCallback
        (FourWheelSteeringController.mkState FourWheelSteeringController.cmd0
          FourWheelSteeringController.cmd0 FourWheelSteeringController.cmd0
          FourWheelSteeringController.cmd0 0) 4 5 6 7 =
      { FourWheelSteeringController.mkState FourWheelSteeringController.cmd0
          FourWheelSteeringController.cmd0 FourWheelSteeringController.cmd0
          FourWheelSteeringController.cmd0 0 with
          command_struct_four_wheel_steering := ⟨6, 0, 4, 5, 7⟩
          command_four_wheel_steering := ⟨6, 0, 4, 5, 7⟩ } := by
  refine ⟨(command_ingestion_requires_running.1 _ _ _ _).1 rfl,
    (command_ingestion_requires_running.1 _ _ _ _).2 rfl, ?_⟩
  have h := (command_ingestion_requires_running.2.2
    (FourWheelSteeringController.mkState FourWheelSteeringController.cmd0
      FourWheelSteeringController.cmd0 FourWheelSteeringController.cmd0
      FourWheelSteeringController.cmd0 0) 4 5 6 7).1 rfl
  simpa [FourWheelSteeringController.mkState, FourWheelSteeringController.cmd0] using h

/-- C3: in every ackermann control cycle the wheel velocity setpoints written
to every wheel pair follow the variant A inverse kinematics applied to the
post-limit command, with the effective separation and radius given by the
configured multipliers; in particular, with multipliers one, separation 0.5
and radius 0.1, a fresh unlimited command (1, 0) gives both setpoints 10 and
(0, 2) gives -5 and 5. -/
theorem ackermann_inverse_kinematics :
    (∀ (cfg : AckermannController.Config) (s : AckermannController.State)
       (sens : Sensors) (time period : ℝ) (o : Odometry),
      AckermannController.odoPhase cfg s sens time = some o →
      (AckermannController.update cfg s sens time period).1.left_wheel_joints =
        List.replicate s.left_wheel_joints.length
          (((AckermannController.update cfg s sens time period).1.last0_cmd.lin -
            (AckermannController.update cfg s sens time period).1.last0_cmd.ang *
              (cfg.wheel_separation_multiplier * cfg.wheel_separation) / 2) /
           (cfg.wheel_radius_multiplier * cfg.wheel_radius)) ∧
      (AckermannController.update cfg s sens time period).1.right_wheel_joints =
        List.replicate s.right_wheel_joints.length
          (((AckermannController.update cfg s sens time period).1.last0_cmd.lin +
            (AckermannController.update cfg s sens time period).1.last0_cmd.ang *
              (cfg.wheel_separation_multiplier * cfg.wheel_separation) / 2) /
           (cfg.wheel_radius_multiplier * cfg.wheel_radius))) ∧
    ((AckermannController.update
        (AckermannController.mkCfg true speedLimiterOff speedLimiterOff)
        (AckermannController.mkState ⟨1, 0, 1⟩ ⟨0, 0, 0⟩ ⟨0, 0, 0⟩ 0 1) sensClean1 1
        (1 / 10)).1.left_wheel_joints = [10] ∧
     (AckermannController.update
        (AckermannController.mkCfg true speedLimiterOff speedLimiterOff)
        (AckermannController.mkState ⟨1, 0, 1⟩ ⟨0, 0, 0⟩ ⟨0, 0, 0⟩ 0 1) sensClean1 1
        (1 / 10)).1.right_wheel_joints = [10]) ∧
    ((AckermannController.update
        (AckermannController.mkCfg true speedLimiterOff speedLimiterOff)
        (AckermannController.mkState ⟨0, 2, 1⟩ ⟨0, 0, 0⟩ ⟨0, 0, 0⟩ 0 1) sensClean1 1
        (1 / 10)).1.left_wheel_joints = [-5] ∧
     (AckermannController.update
        (AckermannController.mkCfg true speedLimiterOff speedLimiterOff)
        (AckermannController.mkState ⟨0, 2, 1⟩ ⟨0, 0, 0⟩ ⟨0, 0, 0⟩ 0 1) sensClean1 1
        (1 / 10)).1.right_wheel_joints = [5]) := by
  refine ⟨fun cfg s sens time period o h => ?_, ⟨?_, ?_⟩, ⟨?_, ?_⟩⟩
  · rw [AckermannController.update_of_some_ack h]
    constructor <;> simp [AckermannController.moveRobot]
  all_goals
    norm_num [AckermannController.update, AckermannController.odoPhase,
      AckermannController.moveRobot, AckermannController.preCmd,
      AckermannController.mkCfg, AckermannController.mkState, speedLimiterOff,
      SpeedLimiter.limit, SpeedLimiter.limitVelocity, SpeedLimiter.limitAcceleration,
      SpeedLimiter.limitJerk, pubAdvance, List.replicate]

/-- Witness for C3: the general inverse-kinematics conjunct applied to a
concrete non-aborting cycle. -/
theorem ackermann_inverse_kinematics_witness :
    (AckermannController.update
      (AckermannController.mkCfg true speedLimiterOff speedLimiterAccOnly)
      (AckermannController.mkState ⟨2, 0, 1⟩ ⟨0, 0, 0⟩ ⟨0, 0, 0⟩ 0 1) sensClean1 1
      (1 / 10)).1.left_wheel_joints = [20] := by
  have h : AckermannController.odoPhase
      (AckermannController.mkCfg true speedLimiterOff speedLimiterAccOnly)
      (AckermannController.mkState ⟨2, 0, 1⟩ ⟨0, 0, 0⟩ ⟨0, 0, 0⟩ 0 1) sensClean1 1 =
      some (odo0.updateOpenLoop 0 0 1) := by
    simp [AckermannController.odoPhase, AckermannController.mkCfg,
      AckermannController.mkState]
  have hk := (ackermann_inverse_kinematics.1 _ _ _ 1 (1 / 10) _ h).1
  rw [hk]
  norm_num [AckermannController.update, AckermannController.odoPhase,
    AckermannController.moveRobot, AckermannController.preCmd,
    AckermannController.mkCfg, AckermannController.mkState, speedLimiterOff,
    speedLimiterAccOnly, SpeedLimiter.limit, SpeedLimiter.limitVelocity,
    SpeedLimiter.limitAcceleration, SpeedLimiter.limitJerk, clampR, pubAdvance,
    List.replicate]

/-- C4: in direct-axle mode (enable_twist_cmd_ false) a non-stale cycle
writes the command's front and rear steering values to the steering joints
unchanged, with no twist conversion and with no limiting applied to them (the
limiter parameters are arbitrary here and only the linear and angular speed
channels pass through the limiter). -/
theorem direct_axle_steering_passthrough :
    ∀ (cfg : FourWheelSteeringController.Config)
      (s : FourWheelSteeringController.State) (sens : Sensors) (time period : ℝ)
      (o : Odometry),
      FourWheelSteeringController.odoPhase cfg s sens time = some o →
      cfg.enable_twist_cmd = false →
      ¬ (cfg.cmd_vel_timeout < time - s.command_four_wheel_steering.stamp) →
      s.left_steering_joints.length = 2 →
      s.right_steering_joints.length = 2 →
      (FourWheelSteeringController.update cfg s sens time period).1.left_steering_joints =
        [NReal.ofReal s.command_four_wheel_steering.front_steering,
         NReal.ofReal s.command_four_wheel_steering.rear_steering] ∧
      (FourWheelSteeringController.update cfg s sens time period).1.right_steering_joints =
        [NReal.ofReal s.command_four_wheel_steering.front_steering,
         NReal.ofReal s.command_four_wheel_steering.rear_steering] ∧
      (FourWheelSteeringController.update cfg s sens time period).1.last0_cmd.lin =
        cfg.limiter_lin.limit s.command_four_wheel_steering.lin s.last0_cmd.lin
          s.last1_cmd.lin period ∧
      (FourWheelSteeringController.update cfg s sens time period).1.last0_cmd.ang =
        cfg.limiter_ang.limit s.command_four_wheel_steering.ang s.last0_cmd.ang
          s.last1_cmd.ang period := by
  intro cfg s sens time period o h ht hs h2 h3
  rw [FourWheelSteeringController.update_of_some_fws h]
  refine ⟨?_, ?_, ?_, ?_⟩ <;>
    simp [FourWheelSteeringController.moveRobot, FourWheelSteeringController.preCmd,
      FourWheelSteeringController.steeringOf, ht, hs, h2, h3]

/-- Witness for C4: a concrete direct-axle cycle passes steering (3, -2)
through untouched while an acceleration limiter is active on the speed
channels. -/
theorem direct_axle_steering_passthrough_witness :
    (FourWheelSteeringController.update
      (FourWheelSteeringController.mkCfg true false speedLimiterAccOnly
        speedLimiterAccOnly)
      (FourWheelSteeringController.mkState FourWheelSteeringController.cmd0
        ⟨0, 0, 3, -2, 1⟩ FourWheelSteeringController.cmd0
        FourWheelSteeringController.cmd0 1) sensClean2 1
      (1 / 10)).1.left_steering_joints = [NReal.ofReal 3, NReal.ofReal (-2)] := by
  have h : FourWheelSteeringController.odoPhase
      (FourWheelSteeringController.mkCfg true false speedLimiterAccOnly
        speedLimiterAccOnly)
      (FourWheelSteeringController.mkState FourWheelSteeringController.cmd0
        ⟨0, 0, 3, -2, 1⟩ FourWheelSteeringController.cmd0
        FourWheelSteeringController.cmd0 1) sensClean2 1 =
      some (odo0.updateOpenLoop 0 0 1) := by
    simp [FourWheelSteeringController.odoPhase, FourWheelSteeringController.mkCfg,
      FourWheelSteeringController.mkState, FourWheelSteeringController.cmd0]
  have hp := (direct_axle_steering_passthrough _ _ _ 1 (1 / 10) _ h rfl
    (by norm_num [FourWheelSteeringController.mkCfg,
      FourWheelSteeringController.mkState]) rfl rfl).1
  simpa [FourWheelSteeringController.mkState] using hp

/-- C7: in every non-aborted cycle of either controller the limiter for each
channel is invoked with the two most recently accepted values as its
previous-value arguments, and afterwards last1_cmd_ holds the previous
last0_cmd_ while last0_cmd_ holds the current cycle's post-limit linear and
angular values (together with the rest of the command struct the limiter
left alone). -/
theorem limiter_history_invariant :
    (∀ (cfg : AckermannController.Config) (s : AckermannController.State)
       (sens : Sensors) (time period : ℝ) (o : Odometry),
      AckermannController.odoPhase cfg s sens time = some o →
      (AckermannController.update cfg s sens time period).1.last1_cmd = s.last0_cmd ∧
      (AckermannController.update cfg s sens time period).1.last0_cmd =
        { lin := cfg.limiter_lin.limit (AckermannController.preCmd cfg s time).lin
            s.last0_cmd.lin s.last1_cmd.lin period
          ang := cfg.limiter_ang.limit (AckermannController.preCmd cfg s time).ang
            s.last0_cmd.ang s.last1_cmd.ang period
          stamp := (AckermannController.preCmd cfg s time).stamp }) ∧
    (∀ (cfg : FourWheelSteeringController.Config)
       (s : FourWheelSteeringController.State) (sens : Sensors) (time period : ℝ)
       (o : Odometry),
      FourWheelSteeringController.odoPhase cfg s sens time = some o →
      (FourWheelSteeringController.update cfg s sens time period).1.last1_cmd =
        s.last0_cmd ∧
      (FourWheelSteeringController.update cfg s sens time period).1.last0_cmd =
        { FourWheelSteeringController.preCmd cfg s time with
            lin := cfg.limiter_lin.limit (FourWheelSteeringController.preCmd cfg s time).lin
              s.last0_cmd.lin s.last1_cmd.lin period
            ang := cfg.limiter_ang.limit (FourWheelSteeringController.preCmd cfg s time).ang
              s.last0_cmd.ang s.last1_cmd.ang period }) := by
  constructor
  · intro cfg s sens time period o h
    rw [AckermannController.update_of_some_ack h]
    exact ⟨rfl, rfl⟩
  · intro cfg s sens time period o h
    rw [FourWheelSteeringController.update_of_some_fws h]
    exact ⟨rfl, rfl⟩

/-- Witness for C7: the history shift on a concrete non-aborting ackermann
cycle. -/
theorem limiter_history_invariant_witness :
    (AckermannController.update
      (AckermannController.mkCfg true speedLimiterOff speedLimiterOff)
      (AckermannController.mkState ⟨1, 0, 1⟩ ⟨4, 5, 6⟩ ⟨7, 8, 9⟩ 0 1) sensClean1 1
      (1 / 10)).1.last1_cmd = ⟨4, 5, 6⟩ := by
  have h : AckermannController.odoPhase
      (AckermannController.mkCfg true speedLimiterOff speedLimiterOff)
      (AckermannController.mkState ⟨1, 0, 1⟩ ⟨4, 5, 6⟩ ⟨7, 8, 9⟩ 0 1) sensClean1 1 =
      some (odo0.updateOpenLoop 4 5 1) := by
    simp [AckermannController.odoPhase, AckermannController.mkCfg,
      AckermannController.mkState]
  have hh := (limiter_history_invariant.1 _ _ _ 1 (1 / 10) _ h).1
  simpa [AckermannController.mkState] using hh

/-- C1: a stale command is zeroed before limiting: in both controllers the
post-limit linear and angular values of a stale cycle equal the limiter
applied to zero (hence they do not depend on the stale command's content, and
are exactly zero whenever the corresponding limiter has no limits enabled),
and in the four-wheel-steering controller the steering fields are also
zeroed, so in direct-axle mode the steering setpoints of a stale cycle are
exactly zero. -/
theorem stale_command_zeroed_before_limiting :
    (∀ (cfg : AckermannController.Config) (s : AckermannController.State)
       (sens : Sensors) (time period : ℝ) (o : Odometry),
      AckermannController.odoPhase cfg s sens time = some o →
      cfg.cmd_vel_timeout < time - s.command.stamp →
      (AckermannController.update cfg s sens time period).1.last0_cmd.lin =
        cfg.limiter_lin.limit 0 s.last0_cmd.lin s.last1_cmd.lin period ∧
      (AckermannController.update cfg s sens time period).1.last0_cmd.ang =
        cfg.limiter_ang.limit 0 s.last0_cmd.ang s.last1_cmd.ang period ∧
      (cfg.limiter_lin.noLimits →
        (AckermannController.update cfg s sens time period).1.last0_cmd.lin = 0) ∧
      (cfg.limiter_ang.noLimits →
        (AckermannController.update cfg s sens time period).1.last0_cmd.ang = 0)) ∧
    (∀ (cfg : FourWheelSteeringController.Config)
       (s : FourWheelSteeringController.State) (sens : Sensors) (time period : ℝ)
       (o : Odometry),
      FourWheelSteeringController.odoPhase cfg s sens time = some o →
      cfg.cmd_vel_timeout < time -
        (if cfg.enable_twist_cmd then s.command else s.command_four_wheel_steering).stamp →
      (FourWheelSteeringController.update cfg s sens time period).1.last0_cmd.lin =
        cfg.limiter_lin.limit 0 s.last0_cmd.lin s.last1_cmd.lin period ∧
      (FourWheelSteeringController.update cfg s sens time period).1.last0_cmd.ang =
        cfg.limiter_ang.limit 0 s.last0_cmd.ang s.last1_cmd.ang period ∧
      (cfg.limiter_lin.noLimits →
        (FourWheelSteeringController.update cfg s sens time period).1.last0_cmd.lin = 0) ∧
      (cfg.limiter_ang.noLimits →
        (FourWheelSteeringController.update cfg s sens time period).1.last0_cmd.ang = 0) ∧
      (FourWheelSteeringController.update cfg s sens time period).1.last0_cmd.front_steering = 0 ∧
      (FourWheelSteeringController.update cfg s sens time period).1.last0_cmd.rear_steering = 0 ∧
      (cfg.enable_twist_cmd = false →
        s.left_steering_joints.length = 2 →
        s.right_steering_joints.length = 2 →
        (FourWheelSteeringController.update cfg s sens time period).1.left_steering_joints =
          [NReal.ofReal 0, NReal.ofReal 0] ∧
        (FourWheelSteeringController.update cfg s sens time period).1.right_steering_joints =
          [NReal.ofReal 0, NReal.ofReal 0])) := by
  constructor
  · intro cfg s sens time period o h hstale
    rw [AckermannController.update_of_some_ack h]
    have hpre : AckermannController.preCmd cfg s time =
        { s.command with lin := 0, ang := 0 } := by
      simp [AckermannController.preCmd, hstale]
    refine ⟨?_, ?_, fun hnl => ?_, fun hnl => ?_⟩ <;>
      simp [AckermannController.moveRobot, hpre, SpeedLimiter.limit_of_noLimits, *]
  · intro cfg s sens time period o h hstale
    rw [FourWheelSteeringController.update_of_some_fws h]
    have hpre : FourWheelSteeringController.preCmd cfg s time =
        { (if cfg.enable_twist_cmd then s.command else s.command_four_wheel_steering) with
            lin := 0, ang := 0, front_steering := 0, rear_steering := 0 } := by
      simp only [FourWheelSteeringController.preCmd]
      rw [if_pos hstale]
    refine ⟨?_, ?_, fun hnl => ?_, fun hnl => ?_, ?_, ?_, fun ht h2 h3 => ⟨?_, ?_⟩⟩ <;>
      simp [FourWheelSteeringController.moveRobot, FourWheelSteeringController.steeringOf,
        hpre, SpeedLimiter.limit_of_noLimits, *]

/-- Counterexample to C1 as stated: a stale cycle of the ackermann controller
with acceleration limiting enabled (bounds [-1, 1]) and accepted history at
10 yields post-limit linear command 9.9 and wheel setpoints 99, not zero. -/
theorem stale_command_nonzero_post_limit :
    (AckermannController.mkCfg true speedLimiterAccOnly
        speedLimiterOff).cmd_vel_timeout <
      10 - (AckermannController.mkState ⟨55, 7, 0⟩ ⟨10, 0, 0⟩ ⟨10, 0, 0⟩ 0
        10).command.stamp ∧
    (AckermannController.update
      (AckermannController.mkCfg true speedLimiterAccOnly speedLimiterOff)
      (AckermannController.mkState ⟨55, 7, 0⟩ ⟨10, 0, 0⟩ ⟨10, 0, 0⟩ 0 10) sensClean1 10
      (1 / 10)).1.last0_cmd.lin = 99 / 10 ∧
    (AckermannController.update
      (AckermannController.mkCfg true speedLimiterAccOnly speedLimiterOff)
      (AckermannController.mkState ⟨55, 7, 0⟩ ⟨10, 0, 0⟩ ⟨10, 0, 0⟩ 0 10) sensClean1 10
      (1 / 10)).1.left_wheel_joints = [99] := by
  refine ⟨?_, ?_, ?_⟩ <;>
    norm_num [AckermannController.update, AckermannController.odoPhase,
      AckermannController.moveRobot, AckermannController.preCmd,
      AckermannController.mkCfg, AckermannController.mkState, speedLimiterAccOnly,
      speedLimiterOff, SpeedLimiter.limit, SpeedLimiter.limitVelocity,
      SpeedLimiter.limitAcceleration, SpeedLimiter.limitJerk, clampR, pubAdvance,
      List.replicate]

/-- Witness for C1 (amended): a concrete stale ackermann cycle with no limits
enabled ends with post-limit linear command zero. -/
theorem stale_command_zeroed_before_limiting_witness :
    (AckermannController.update
      (AckermannController.mkCfg true speedLimiterOff speedLimiterOff)
      (AckermannController.mkState ⟨55, 7, 0⟩ ⟨10, 0, 0⟩ ⟨10, 0, 0⟩ 0 10) sensClean1 10
      (1 / 10)).1.last0_cmd.lin = 0 := by
  have h : AckermannController.odoPhase
      (AckermannController.mkCfg true speedLimiterOff speedLimiterOff)
      (AckermannController.mkState ⟨55, 7, 0⟩ ⟨10, 0, 0⟩ ⟨10, 0, 0⟩ 0 10) sensClean1 10 =
      some (odo0.updateOpenLoop 10 0 10) := by
    simp [AckermannController.odoPhase, AckermannController.mkCfg,
      AckermannController.mkState]
  exact (stale_command_zeroed_before_limiting.1 _ _ _ 10 (1 / 10) _ h
      (by norm_num [AckermannController.mkCfg, AckermannController.mkState])).2.2.1
    (by simp [AckermannController.mkCfg, speedLimiterOff, SpeedLimiter.noLimits])

/-- C2: a NaN wheel position or velocity reading (within the wheel pairs the
read loop visits) aborts the whole closed-loop cycle of either controller:
every actuator setpoint, the odometry state, the limiter history, the publish
bookkeeping are unchanged and nothing is published.  (Steering position
readings are not NaN-checked; see the counterexample.) -/
theorem nan_wheel_reading_aborts_cycle :
    (∀ (cfg : AckermannController.Config) (s : AckermannController.State)
       (sens : Sensors) (time period : ℝ),
      cfg.open_loop = false →
      (∃ pr ∈ sens.left_wheels.zip sens.right_wheels,
        pr.1.pos.nan = true ∨ pr.1.vel.nan = true ∨ pr.2.pos.nan = true ∨
          pr.2.vel.nan = true) →
      AckermannController.update cfg s sens time period = (s, [])) ∧
    (∀ (cfg : FourWheelSteeringController.Config)
       (s : FourWheelSteeringController.State) (sens : Sensors) (time period : ℝ),
      cfg.open_loop = false →
      (∃ pr ∈ sens.left_wheels.zip sens.right_wheels,
        pr.1.pos.nan = true ∨ pr.1.vel.nan = true ∨ pr.2.pos.nan = true ∨
          pr.2.vel.nan = true) →
      FourWheelSteeringController.update cfg s sens time period = (s, [])) := by
  constructor
  · intro cfg s sens time period hol h
    exact AckermannController.update_of_aborted_ack
      (AckermannController.odoPhase_eq_none_iff_ack.mpr
        ⟨hol, readWheelJoints_eq_none_of_nan _ _ h⟩)
  · intro cfg s sens time period hol h
    exact FourWheelSteeringController.update_of_aborted_fws
      (FourWheelSteeringController.odoPhase_eq_none_iff_fws.mpr
        ⟨hol, readWheelJoints_eq_none_of_nan _ _ h⟩)

/-- Counterexample to C2 as stated: a steering position reading of NaN is a
sensor reading of the cycle, yet the ackermann cycle is not aborted: the
wheel setpoints are still overwritten (here from 0 to 10). -/
theorem nan_steering_reading_does_not_abort :
    (sensNanSteer1.left_steerings.headD cleanReading).pos.nan = true ∧
    (AckermannController.mkState ⟨1, 0, 1⟩ ⟨0, 0, 0⟩ ⟨0, 0, 0⟩ 42
      1).left_wheel_joints = [0] ∧
    (AckermannController.update
      (AckermannController.mkCfg false speedLimiterOff speedLimiterOff)
      (AckermannController.mkState ⟨1, 0, 1⟩ ⟨0, 0, 0⟩ ⟨0, 0, 0⟩ 42 1) sensNanSteer1 1
      (1 / 10)).1.left_wheel_joints = [10] := by
  refine ⟨rfl, rfl, ?_⟩
  norm_num [AckermannController.update, AckermannController.odoPhase,
    AckermannController.moveRobot, AckermannController.preCmd,
    AckermannController.mkCfg, AckermannController.mkState, speedLimiterOff,
    SpeedLimiter.limit, SpeedLimiter.limitVelocity, SpeedLimiter.limitAcceleration,
    SpeedLimiter.limitJerk, readWheelJoints, sensNanSteer1, cleanReading,
    nanPosReading, pubAdvance, List.replicate]

/-- Witness for C2 (amended): concrete cycles of both controllers with a NaN
wheel reading return with the state unchanged and nothing published. -/
theorem nan_wheel_reading_aborts_cycle_witness :
    AckermannController.update
        (AckermannController.mkCfg false speedLimiterOff speedLimiterOff)
        (AckermannController.mkState ⟨0, 0, 0⟩ ⟨0, 0, 0⟩ ⟨0, 0, 0⟩ 0 0) sensNanWheel1 1
        (1 / 10) =
      (AckermannController.mkState ⟨0, 0, 0⟩ ⟨0, 0, 0⟩ ⟨0, 0, 0⟩ 0 0, []) ∧
    FourWheelSteeringController.update
        (FourWheelSteeringController.mkCfg false true speedLimiterOff speedLimiterOff)
        (FourWheelSteeringController.mkState FourWheelSteeringController.cmd0
          FourWheelSteeringController.cmd0 FourWheelSteeringController.cmd0
          FourWheelSteeringController.cmd0 0) sensNanWheel2 1 (1 / 10) =
      (FourWheelSteeringController.mkState FourWheelSteeringController.cmd0
        FourWheelSteeringController.cmd0 FourWheelSteeringController.cmd0
        FourWheelSteeringController.cmd0 0, []) := by
  constructor
  · exact nan_wheel_reading_aborts_cycle.1 _ _ _ _ _ rfl
      ⟨(nanPosReading, cleanReading), by simp [sensNanWheel1], Or.inl rfl⟩
  · exact nan_wheel_reading_aborts_cycle.2 _ _ _ _ _ rfl
      ⟨(cleanReading, ⟨NReal.ofReal 0, ⟨true, 0⟩⟩), by simp [sensNanWheel2],
        Or.inr (Or.inr (Or.inr rfl))⟩

/-- C6: every non-aborted cycle writes the wheel velocity setpoints in both
controllers, and the four-wheel-steering controller (with its required two
joint pairs) also writes the steering setpoints; the ackermann update writes
no steering setpoint at all, leaving the steering commands exactly as they
were (they are only zeroed by brake() on starting and stopping). -/
theorem cycle_writes_wheel_setpoints :
    (∀ (cfg : AckermannController.Config) (s : AckermannController.State)
       (sens : Sensors) (time period : ℝ) (o : Odometry),
      AckermannController.odoPhase cfg s sens time = some o →
      (AckermannController.update cfg s sens time period).1.left_wheel_joints =
        List.replicate s.left_wheel_joints.length
          (((AckermannController.update cfg s sens time period).1.last0_cmd.lin -
            (AckermannController.update cfg s sens time period).1.last0_cmd.ang *
              (cfg.wheel_separation_multiplier * cfg.wheel_separation) / 2) /
           (cfg.wheel_radius_multiplier * cfg.wheel_radius)) ∧
      (AckermannController.update cfg s sens time period).1.right_wheel_joints =
        List.replicate s.right_wheel_joints.length
          (((AckermannController.update cfg s sens time period).1.last0_cmd.lin +
            (AckermannController.update cfg s sens time period).1.last0_cmd.ang *
              (cfg.wheel_separation_multiplier * cfg.wheel_separation) / 2) /
           (cfg.wheel_radius_multiplier * cfg.wheel_radius)) ∧
      (AckermannController.update cfg s sens time period).1.left_steering_joints =
        s.left_steering_joints ∧
      (AckermannController.update cfg s sens time period).1.right_steering_joints =
        s.right_steering_joints) ∧
    (∀ (cfg : FourWheelSteeringController.Config)
       (s : FourWheelSteeringController.State) (sens : Sensors) (time period : ℝ)
       (o : Odometry),
      FourWheelSteeringController.odoPhase cfg s sens time = some o →
      s.left_wheel_joints.length = 2 → s.right_wheel_joints.length = 2 →
      s.left_steering_joints.length = 2 → s.right_steering_joints.length = 2 →
      (FourWheelSteeringController.update cfg s sens time period).1.left_wheel_joints =
        [FourWheelSteeringController.velLeftFront
            (FourWheelSteeringController.update cfg s sens time period).1.last0_cmd.lin
            o.angular cfg.wheel_separation cfg.wheel_radius cfg.wheel_base,
         FourWheelSteeringController.velLeftRear
            (FourWheelSteeringController.update cfg s sens time period).1.last0_cmd.lin
            o.angular cfg.wheel_separation cfg.wheel_radius] ∧
      (FourWheelSteeringController.update cfg s sens time period).1.right_wheel_joints =
        [FourWheelSteeringController.velRightFront
            (FourWheelSteeringController.update cfg s sens time period).1.last0_cmd.lin
            o.angular cfg.wheel_separation cfg.wheel_radius cfg.wheel_base,
         FourWheelSteeringController.velRightRear
            (FourWheelSteeringController.update cfg s sens time period).1.last0_cmd.lin
            o.angular cfg.wheel_separation cfg.wheel_radius] ∧
      (FourWheelSteeringController.update cfg s sens time period).1.left_steering_joints =
        [(FourWheelSteeringController.steeringOf cfg.enable_twist_cmd
            (FourWheelSteeringController.update cfg s sens time period).1.last0_cmd.ang
            cfg.wheel_base o.linear
            (FourWheelSteeringController.update cfg s sens time period).1.last0_cmd.front_steering
            (FourWheelSteeringController.update cfg s sens time period).1.last0_cmd.rear_steering).1,
         (FourWheelSteeringController.steeringOf cfg.enable_twist_cmd
            (FourWheelSteeringController.update cfg s sens time period).1.last0_cmd.ang
            cfg.wheel_base o.linear
            (FourWheelSteeringController.update cfg s sens time period).1.last0_cmd.front_steering
            (FourWheelSteeringController.update cfg s sens time period).1.last0_cmd.rear_steering).2] ∧
      (FourWheelSteeringController.update cfg s sens time period).1.right_steering_joints =
        (FourWheelSteeringController.update cfg s sens time period).1.left_steering_joints) := by
  constructor
  · intro cfg s sens time period o h
    rw [AckermannController.update_of_some_ack h]
    refine ⟨?_, ?_, rfl, rfl⟩ <;> simp [AckermannController.moveRobot]
  · intro cfg s sens time period o h h1 h2 h3 h4
    rw [FourWheelSteeringController.update_of_some_fws h]
    refine ⟨?_, ?_, ?_, ?_⟩ <;>
      simp [FourWheelSteeringController.moveRobot, h1, h2, h3, h4]

/-- Counterexample to C6 as stated: the ackermann update never writes the
steering setpoints.  Two identical non-aborted cycles that differ only in the
steering command left by the previous cycle keep their respective prior
values (42 and 7), so no steering setpoint is produced by the cycle. -/
theorem ackermann_update_leaves_steering_untouched :
    AckermannController.odoPhase
        (AckermannController.mkCfg false speedLimiterOff speedLimiterOff)
        (AckermannController.mkState ⟨1, 0, 1⟩ ⟨0, 0, 0⟩ ⟨0, 0, 0⟩ 42 1) sensClean1 1 ≠
      none ∧
    (AckermannController.update
      (AckermannController.mkCfg false speedLimiterOff speedLimiterOff)
      (AckermannController.mkState ⟨1, 0, 1⟩ ⟨0, 0, 0⟩ ⟨0, 0, 0⟩ 42 1) sensClean1 1
      (1 / 10)).1.left_steering_joints = [42] ∧
    (AckermannController.update
      (AckermannController.mkCfg false speedLimiterOff speedLimiterOff)
      (AckermannController.mkState ⟨1, 0, 1⟩ ⟨0, 0, 0⟩ ⟨0, 0, 0⟩ 7 1) sensClean1 1
      (1 / 10)).1.left_steering_joints = [7] := by
  refine ⟨fun hnone => ?_, ?_, ?_⟩
  · rw [AckermannController.odoPhase_eq_none_iff_ack] at hnone
    norm_num [readWheelJoints, sensClean1, cleanReading] at hnone
    exact Option.noConfusion hnone.2
  all_goals
    norm_num [AckermannController.update, AckermannController.odoPhase,
      AckermannController.moveRobot, AckermannController.preCmd,
      AckermannController.mkCfg, AckermannController.mkState, speedLimiterOff,
      SpeedLimiter.limit, SpeedLimiter.limitVelocity, SpeedLimiter.limitAcceleration,
      SpeedLimiter.limitJerk, readWheelJoints, sensClean1, cleanReading, pubAdvance,
      List.replicate]

/-- Witness for C6 (amended): a concrete non-aborted four-wheel-steering
cycle writes all four wheel setpoints and both steering setpoints. -/
theorem cycle_writes_wheel_setpoints_witness :
    (FourWheelSteeringController.update
      (FourWheelSteeringController.mkCfg true false speedLimiterOff speedLimiterOff)
      (FourWheelSteeringController.mkState FourWheelSteeringController.cmd0
        ⟨1, 0, 3, -2, 1⟩ FourWheelSteeringController.cmd0
        FourWheelSteeringController.cmd0 1) sensClean2 1
      (1 / 10)).1.left_wheel_joints =
      [FourWheelSteeringController.velLeftFront 1 (NReal.ofReal 0) (1 / 2) (1 / 10) 1,
       FourWheelSteeringController.velLeftRear 1 (NReal.ofReal 0) (1 / 2) (1 / 10)] := by
  have h : FourWheelSteeringController.odoPhase
      (FourWheelSteeringController.mkCfg true false speedLimiterOff speedLimiterOff)
      (FourWheelSteeringController.mkState FourWheelSteeringController.cmd0
        ⟨1, 0, 3, -2, 1⟩ FourWheelSteeringController.cmd0
        FourWheelSteeringController.cmd0 1) sensClean2 1 =
      some (odo0.updateOpenLoop 0 0 1) := by
    simp [FourWheelSteeringController.odoPhase, FourWheelSteeringController.mkCfg,
      FourWheelSteeringController.mkState, FourWheelSteeringController.cmd0]
  have hw := (cycle_writes_wheel_setpoints.2 _ _ _ 1 (1 / 10) _ h rfl rfl rfl rfl).1
  rw [hw]
  norm_num [FourWheelSteeringController.update, FourWheelSteeringController.odoPhase,
    FourWheelSteeringController.moveRobot, FourWheelSteeringController.preCmd,
    FourWheelSteeringController.mkCfg, FourWheelSteeringController.mkState,
    FourWheelSteeringController.cmd0, Odometry.updateOpenLoop, odo0, speedLimiterOff,
    SpeedLimiter.limit, SpeedLimiter.limitVelocity, SpeedLimiter.limitAcceleration,
    SpeedLimiter.limitJerk, pubAdvance]

/-- An NReal equals an embedded real exactly when its NaN flag is clear and
its payload matches. -/
theorem NReal.eq_ofReal_iff {a : NReal} {x : ℝ} :
    a = NReal.ofReal x ↔ a.nan = false ∧ a.val = x := by
  cases a
  simp [NReal.ofReal]

/-- C5: in twist-input mode, the steering setpoints of a cycle are exactly
zero whenever the post-update odometry linear-velocity estimate has magnitude
at most 0.01 (or is NaN, which compares false); otherwise they are
front = atan(post-limit angular command * wheel base / estimate) / 2 written
to both front steering joints and the negated half written to both rear
steering joints. -/
theorem twist_mode_steering :
    ∀ (cfg : FourWheelSteeringController.Config)
      (s : FourWheelSteeringController.State) (sens : Sensors) (time period : ℝ)
      (o : Odometry),
      FourWheelSteeringController.odoPhase cfg s sens time = some o →
      cfg.enable_twist_cmd = true →
      s.left_steering_joints.length = 2 →
      s.right_steering_joints.length = 2 →
      ((o.linear.nan = false → |o.linear.val| ≤ 0.01 →
        (FourWheelSteeringController.update cfg s sens time period).1.left_steering_joints =
          [NReal.ofReal 0, NReal.ofReal 0] ∧
        (FourWheelSteeringController.update cfg s sens time period).1.right_steering_joints =
          [NReal.ofReal 0, NReal.ofReal 0]) ∧
       (o.linear.nan = true →
        (FourWheelSteeringController.update cfg s sens time period).1.left_steering_joints =
          [NReal.ofReal 0, NReal.ofReal 0] ∧
        (FourWheelSteeringController.update cfg s sens time period).1.right_steering_joints =
          [NReal.ofReal 0, NReal.ofReal 0]) ∧
       (o.linear.nan = false → 0.01 < |o.linear.val| →
        (FourWheelSteeringController.update cfg s sens time period).1.left_steering_joints =
          [NReal.ofReal (Real.arctan
              ((FourWheelSteeringController.update cfg s sens time period).1.last0_cmd.ang *
                cfg.wheel_base / o.linear.val) / 2),
           NReal.ofReal (-(Real.arctan
              ((FourWheelSteeringController.update cfg s sens time period).1.last0_cmd.ang *
                cfg.wheel_base / o.linear.val) / 2))] ∧
        (FourWheelSteeringController.update cfg s sens time period).1.right_steering_joints =
          (FourWheelSteeringController.update cfg s sens time period).1.left_steering_joints)) := by
  intro cfg s sens time period o h ht h2 h3
  rw [FourWheelSteeringController.update_of_some_fws h]
  refine ⟨fun hnan hle => ?_, fun hnan => ?_, fun hnan hlt => ?_⟩
  · have hcond : ¬ (o.linear.nan = false ∧ (0.01 : ℝ) < |o.linear.val|) := by
      rintro ⟨-, hlt⟩
      exact absurd hle (not_le.mpr hlt)
    constructor <;>
      simp [FourWheelSteeringController.moveRobot,
        FourWheelSteeringController.steeringOf, ht, h2, h3, hcond]
  · have hcond : ¬ (o.linear.nan = false ∧ (0.01 : ℝ) < |o.linear.val|) := by
      rintro ⟨hf, -⟩
      rw [hnan] at hf
      exact Bool.true_eq_false.mp hf
    constructor <;>
      simp [FourWheelSteeringController.moveRobot,
        FourWheelSteeringController.steeringOf, ht, h2, h3, hcond]
  · constructor <;>
      simp [FourWheelSteeringController.moveRobot,
        FourWheelSteeringController.steeringOf, NReal.atanN, ht, h2, h3, hnan, hlt,
        NReal.eq_ofReal_iff, neg_div]

/-- Witness for C5: with the odometry estimate at zero the steering setpoints
are zero, and with the estimate at one and post-limit angular command three
they follow the arctangent formula. -/
theorem twist_mode_steering_witness :
    (FourWheelSteeringController.update
      (FourWheelSteeringController.mkCfg true true speedLimiterOff speedLimiterOff)
      (FourWheelSteeringController.mkState ⟨1, 0, 0, 0, 1⟩
        FourWheelSteeringController.cmd0 FourWheelSteeringController.cmd0
        FourWheelSteeringController.cmd0 1) sensClean2 1
      (1 / 10)).1.left_steering_joints = [NReal.ofReal 0, NReal.ofReal 0] ∧
    (FourWheelSteeringController.update
      (FourWheelSteeringController.mkCfg true true speedLimiterOff speedLimiterOff)
      (FourWheelSteeringController.mkState ⟨2, 3, 0, 0, 1⟩
        FourWheelSteeringController.cmd0 ⟨1, 0, 0, 0, 0⟩
        FourWheelSteeringController.cmd0 1) sensClean2 1
      (1 / 10)).1.left_steering_joints =
      [NReal.ofReal (Real.arctan 3 / 2), NReal.ofReal (-(Real.arctan 3 / 2))] := by
  constructor
  · have h : FourWheelSteeringController.odoPhase
        (FourWheelSteeringController.mkCfg true true speedLimiterOff speedLimiterOff)
        (FourWheelSteeringController.mkState ⟨1, 0, 0, 0, 1⟩
          FourWheelSteeringController.cmd0 FourWheelSteeringController.cmd0
          FourWheelSteeringController.cmd0 1) sensClean2 1 =
        some (odo0.updateOpenLoop 0 0 1) := by
      simp [FourWheelSteeringController.odoPhase, FourWheelSteeringController.mkCfg,
        FourWheelSteeringController.mkState, FourWheelSteeringController.cmd0]
    exact ((twist_mode_steering _ _ _ 1 (1 / 10) _ h rfl rfl rfl).1
      (by simp [Odometry.updateOpenLoop, odo0])
      (by norm_num [Odometry.updateOpenLoop, odo0])).1
  · have h : FourWheelSteeringController.odoPhase
        (FourWheelSteeringController.mkCfg true true speedLimiterOff speedLimiterOff)
        (FourWheelSteeringController.mkState ⟨2, 3, 0, 0, 1⟩
          FourWheelSteeringController.cmd0 ⟨1, 0, 0, 0, 0⟩
          FourWheelSteeringController.cmd0 1) sensClean2 1 =
        some (odo0.updateOpenLoop 1 0 1) := by
      simp [FourWheelSteeringController.odoPhase, FourWheelSteeringController.mkCfg,
        FourWheelSteeringController.mkState, FourWheelSteeringController.cmd0]
    have ha := ((twist_mode_steering _ _ _ 1 (1 / 10) _ h rfl rfl rfl).2.2
      (by simp [Odometry.updateOpenLoop, odo0])
      (by norm_num [Odometry.updateOpenLoop, odo0])).1
    rw [ha]
    norm_num [FourWheelSteeringController.update, FourWheelSteeringController.odoPhase,
      FourWheelSteeringController.moveRobot, FourWheelSteeringController.preCmd,
      FourWheelSteeringController.mkCfg, FourWheelSteeringController.mkState,
      FourWheelSteeringController.cmd0, Odometry.updateOpenLoop, odo0, speedLimiterOff,
      SpeedLimiter.limit, SpeedLimiter.limitVelocity, SpeedLimiter.limitAcceleration,
      SpeedLimiter.limitJerk, pubAdvance]

/-- C10: in every cycle odometry is published at most once; in a non-aborted
cycle a publication happens exactly when one publish period has elapsed, and
then last_state_publish_time_ advances by exactly one period (it is not set
to the cycle time), otherwise it is unchanged; consequently a controller that
has fallen more than k+1 periods behind publishes on each of the next k+1
cycles, its publish clock catching up one period per cycle.  Both controllers
behave identically. -/
theorem publish_cadence :
    (∀ (cfg : AckermannController.Config) (s : AckermannController.State)
       (sens : Sensors) (time period : ℝ),
      (AckermannController.update cfg s sens time period).2.length ≤ 1) ∧
    (∀ (cfg : FourWheelSteeringController.Config)
       (s : FourWheelSteeringController.State) (sens : Sensors) (time period : ℝ),
      (FourWheelSteeringController.update cfg s sens time period).2.length ≤ 1) ∧
    (∀ (cfg : AckermannController.Config) (s : AckermannController.State)
       (sens : Sensors) (time period : ℝ) (o : Odometry),
      AckermannController.odoPhase cfg s sens time = some o →
      (((AckermannController.update cfg s sens time period).2 ≠ [] ↔
          s.last_state_publish_time + cfg.publish_period < time) ∧
       ((AckermannController.update cfg s sens time period).2 ≠ [] →
          (AckermannController.update cfg s sens time period).1.last_state_publish_time =
            s.last_state_publish_time + cfg.publish_period) ∧
       ((AckermannController.update cfg s sens time period).2 = [] →
          (AckermannController.update cfg s sens time period).1.last_state_publish_time =
            s.last_state_publish_time))) ∧
    (∀ (cfg : FourWheelSteeringController.Config)
       (s : FourWheelSteeringController.State) (sens : Sensors) (time period : ℝ)
       (o : Odometry),
      FourWheelSteeringController.odoPhase cfg s sens time = some o →
      (((FourWheelSteeringController.update cfg s sens time period).2 ≠ [] ↔
          s.last_state_publish_time + cfg.publish_period < time) ∧
       ((FourWheelSteeringController.update cfg s sens time period).2 ≠ [] →
          (FourWheelSteeringController.update cfg s sens time period).1.last_state_publish_time =
            s.last_state_publish_time + cfg.publish_period) ∧
       ((FourWheelSteeringController.update cfg s sens time period).2 = [] →
          (FourWheelSteeringController.update cfg s sens time period).1.last_state_publish_time =
            s.last_state_publish_time))) ∧
    (∀ (cfg : AckermannController.Config) (sens : Sensors) (time period : ℝ)
       (s : AckermannController.State) (k : ℕ),
      (cfg.open_loop = true ∨
        readWheelJoints sens.left_wheels sens.right_wheels ≠ none) →
      0 < cfg.publish_period →
      s.last_state_publish_time + (k + 1) * cfg.publish_period < time →
      (∀ j ≤ k,
        (AckermannController.update cfg
          (AckermannController.iterateCycles cfg sens time period s j) sens time
          period).2 ≠ []) ∧
      (AckermannController.iterateCycles cfg sens time period s
          (k + 1)).last_state_publish_time =
        s.last_state_publish_time + (k + 1) * cfg.publish_period) ∧
    (∀ (cfg : FourWheelSteeringController.Config) (sens : Sensors) (time period : ℝ)
       (s : FourWheelSteeringController.State) (k : ℕ),
      (cfg.open_loop = true ∨
        readWheelJoints sens.left_wheels sens.right_wheels ≠ none) →
      0 < cfg.publish_period →
      s.last_state_publish_time + (k + 1) * cfg.publish_period < time →
      (∀ j ≤ k,
        (FourWheelSteeringController.update cfg
          (FourWheelSteeringController.iterateCycles cfg sens time period s j) sens
          time period).2 ≠ []) ∧
      (FourWheelSteeringController.iterateCycles cfg sens time period s
          (k + 1)).last_state_publish_time =
        s.last_state_publish_time + (k + 1) * cfg.publish_period) := by
  refine ⟨?_, ?_, ?_, ?_, ?_, ?_⟩
  · intro cfg s sens time period
    cases h : AckermannController.odoPhase cfg s sens time with
    | none => simp [AckermannController.update_of_aborted_ack h]
    | some o =>
      rw [AckermannController.update_of_some_ack h]
      simp only [AckermannController.moveRobot]
      split <;> simp
  · intro cfg s sens time period
    cases h : FourWheelSteeringController.odoPhase cfg s sens time with
    | none => simp [FourWheelSteeringController.update_of_aborted_fws h]
    | some o =>
      rw [FourWheelSteeringController.update_of_some_fws h]
      simp only [FourWheelSteeringController.moveRobot]
      split <;> simp
  · intro cfg s sens time period o h
    rw [AckermannController.update_of_some_ack h]
    by_cases hc : s.last_state_publish_time + cfg.publish_period < time <;>
      simp [AckermannController.moveRobot, pubAdvance, hc]
  · intro cfg s sens time period o h
    rw [FourWheelSteeringController.update_of_some_fws h]
    by_cases hc : s.last_state_publish_time + cfg.publish_period < time <;>
      simp [FourWheelSteeringController.moveRobot, pubAdvance, hc]
  · intro cfg sens time period s k hna hP h
    have hne : ∀ s' : AckermannController.State,
        AckermannController.odoPhase cfg s' sens time ≠ none := by
      intro s' hn
      rw [AckermannController.odoPhase_eq_none_iff_ack] at hn
      rcases hna with hol | hrd
      · rw [hol] at hn
        exact Bool.true_eq_false.mp hn.1
      · exact hrd hn.2
    have hstep : ∀ s' : AckermannController.State,
        (AckermannController.update cfg s' sens time period).1.last_state_publish_time =
          pubAdvance s'.last_state_publish_time cfg.publish_period time := by
      intro s'
      cases ho : AckermannController.odoPhase cfg s' sens time with
      | none => exact absurd ho (hne s')
      | some o' =>
        rw [AckermannController.update_of_some_ack ho]
        simp [AckermannController.moveRobot]
    have hmsg : ∀ s' : AckermannController.State,
        ((AckermannController.update cfg s' sens time period).2 ≠ [] ↔
          s'.last_state_publish_time + cfg.publish_period < time) := by
      intro s'
      cases ho : AckermannController.odoPhase cfg s' sens time with
      | none => exact absurd ho (hne s')
      | some o' =>
        rw [AckermannController.update_of_some_ack ho]
        by_cases hc : s'.last_state_publish_time + cfg.publish_period < time <;>
          simp [AckermannController.moveRobot, hc]
    have key := pubAdvance_catchup cfg.publish_period time hP
      (fun n => (AckermannController.iterateCycles cfg sens time period s
        n).last_state_publish_time)
      (fun n => hstep _) k (by simpa [AckermannController.iterateCycles] using h)
    constructor
    · intro j hj
      rw [hmsg]
      have hkey := key j (le_trans hj (Nat.le_succ k))
      simp only [AckermannController.iterateCycles] at hkey ⊢
      rw [hkey]
      have hle : ((j : ℝ) + 1) * cfg.publish_period ≤
          ((k : ℝ) + 1) * cfg.publish_period := by
        have hjk : ((j : ℝ) + 1) ≤ (k : ℝ) + 1 := by exact_mod_cast Nat.succ_le_succ hj
        exact mul_le_mul_of_nonneg_right hjk hP.le
      have hexp : ((j : ℝ) + 1) * cfg.publish_period =
          (j : ℝ) * cfg.publish_period + cfg.publish_period := by ring
      linarith
    · have hkey := key (k + 1) le_rfl
      simpa [AckermannController.iterateCycles] using hkey
  · intro cfg sens time period s k hna hP h
    have hne : ∀ s' : FourWheelSteeringController.State,
        FourWheelSteeringController.odoPhase cfg s' sens time ≠ none := by
      intro s' hn
      rw [FourWheelSteeringController.odoPhase_eq_none_iff_fws] at hn
      rcases hna with hol | hrd
      · rw [hol] at hn
        exact Bool.true_eq_false.mp hn.1
      · exact hrd hn.2
    have hstep : ∀ s' : FourWheelSteeringController.State,
        (FourWheelSteeringController.update cfg s' sens time
          period).1.last_state_publish_time =
          pubAdvance s'.last_state_publish_time cfg.publish_period time := by
      intro s'
      cases ho : FourWheelSteeringController.odoPhase cfg s' sens time with
      | none => exact absurd ho (hne s')
      | some o' =>
        rw [FourWheelSteeringController.update_of_some_fws ho]
        simp [FourWheelSteeringController.moveRobot]
    have hmsg : ∀ s' : FourWheelSteeringController.State,
        ((FourWheelSteeringController.update cfg s' sens time period).2 ≠ [] ↔
          s'.last_state_publish_time + cfg.publish_period < time) := by
      intro s'
      cases ho : FourWheelSteeringController.odoPhase cfg s' sens time with
      | none => exact absurd ho (hne s')
      | some o' =>
        rw [FourWheelSteeringController.update_of_some_fws ho]
        by_cases hc : s'.last_state_publish_time + cfg.publish_period < time <;>
          simp [FourWheelSteeringController.moveRobot, hc]
    have key := pubAdvance_catchup cfg.publish_period time hP
      (fun n => (FourWheelSteeringController.iterateCycles cfg sens time period s
        n).last_state_publish_time)
      (fun n => hstep _) k (by simpa [FourWheelSteeringController.iterateCycles] using h)
    constructor
    · intro j hj
      rw [hmsg]
      have hkey := key j (le_trans hj (Nat.le_succ k))
      simp only [FourWheelSteeringController.iterateCycles] at hkey ⊢
      rw [hkey]
      have hle : ((j : ℝ) + 1) * cfg.publish_period ≤
          ((k : ℝ) + 1) * cfg.publish_period := by
        have hjk : ((j : ℝ) + 1) ≤ (k : ℝ) + 1 := by exact_mod_cast Nat.succ_le_succ hj
        exact mul_le_mul_of_nonneg_right hjk hP.le
      have hexp : ((j : ℝ) + 1) * cfg.publish_period =
          (j : ℝ) * cfg.publish_period + cfg.publish_period := by ring
      linarith
    · have hkey := key (k + 1) le_rfl
      simpa [FourWheelSteeringController.iterateCycles] using hkey

/-- Witness for C10: a controller three periods behind catches up one period
per cycle (publish clock 3 after three cycles at time 10), and a single
publishing cycle advances the clock from 0 to exactly one period. -/
theorem publish_cadence_witness :
    (AckermannController.iterateCycles
      (AckermannController.mkCfg true speedLimiterOff speedLimiterOff) sensClean1 10
      (1 / 10) (AckermannController.mkState ⟨0, 0, 0⟩ ⟨0, 0, 0⟩ ⟨0, 0, 0⟩ 0 0)
      3).last_state_publish_time = 3 ∧
    (AckermannController.update
      (AckermannController.mkCfg true speedLimiterOff speedLimiterOff)
      (AckermannController.mkState ⟨0, 0, 0⟩ ⟨0, 0, 0⟩ ⟨0, 0, 0⟩ 0 0) sensClean1 10
      (1 / 10)).1.last_state_publish_time = 1 := by
  constructor
  · have hc := (publish_cadence.2.2.2.2.1
      (AckermannController.mkCfg true speedLimiterOff speedLimiterOff) sensClean1 10
      (1 / 10) (AckermannController.mkState ⟨0, 0, 0⟩ ⟨0, 0, 0⟩ ⟨0, 0, 0⟩ 0 0) 2
      (Or.inl rfl) (by norm_num [AckermannController.mkCfg])
      (by norm_num [AckermannController.mkCfg, AckermannController.mkState])).2
    norm_num [AckermannController.mkCfg, AckermannController.mkState] at hc
    exact hc
  · have h : AckermannController.odoPhase
        (AckermannController.mkCfg true speedLimiterOff speedLimiterOff)
        (AckermannController.mkState ⟨0, 0, 0⟩ ⟨0, 0, 0⟩ ⟨0, 0, 0⟩ 0 0) sensClean1 10 =
        some (odo0.updateOpenLoop 0 0 10) := by
      simp [AckermannController.odoPhase, AckermannController.mkCfg,
        AckermannController.mkState]
    have hiff := publish_cadence.2.2.1 _ _ _ 10 (1 / 10) _ h
    have hpub := hiff.1.mpr
      (by norm_num [AckermannController.mkCfg, AckermannController.mkState])
    have hadv := hiff.2.1 hpub
    norm_num [AckermannController.mkCfg, AckermannController.mkState] at hadv
    exact hadv
